import Mathlib

/-!
Shallow embedding of `src/pownycli/client.py`, the command line tool of the
GNS rule system, together with a model of the uploader component that the
specification describes (its module is not part of the sources).  Python
side effects are made explicit: raised exceptions become `Except.error`
values or dedicated outcome constructors, the touched parts of the
filesystem become explicit state, and library calls such as `json.load` or
`os.listdir` become parameters carrying their outcome.
-/

namespace PownyCli

/-- Python truthiness of an optional string value: `None` and the empty
string are falsy, every other string is truthy. -/
def pyTruthy : Option String → Bool
  | none => false
  | some s => !(s == "")

/-- JSON documents, as produced by `json.load`. -/
inductive Json where
  | null : Json
  | bool (b : Bool) : Json
  | num (n : Int) : Json
  | str (s : String) : Json
  | arr (elems : List Json) : Json
  | obj (fields : List (String × Json)) : Json

/-- Embeds `_validate_repo_path` (client.py lines 23-28).  `listdir` carries
the outcome of `os.listdir`; raising `click.BadParameter` is modelled as
`Except.error` with the formatted message. -/
def _validate_repo_path (listdir : String → List String) (value : String) :
    Except String String :=
  if ".git" ∉ listdir value then
    Except.error (value ++ " is not git repository!")
  else
    Except.ok value

/-- The `rules` command group (client.py lines 137-145): the callback
`_validate_repo_path` on the rules-path option runs before any subcommand
body, so when validation fails the error is the outcome and `body` is never
invoked. -/
def rules_group {α : Type} (listdir : String → List String)
    (rules_path : String) (body : String → α) : Except String α :=
  Except.map body (_validate_repo_path listdir rules_path)

/-- Embeds `_read_gns_api_url_from_settings` (client.py lines 40-47).
`settings` is the value of `Settings.get "gns_api_url"`.  In the final
branch the source merely constructs `click.BadParameter` and never raises
it, so the Python function falls through and returns `None`. -/
def _read_gns_api_url_from_settings (settings : Option String)
    (api_url : Option String) : Option String :=
  if pyTruthy api_url then api_url
  else if pyTruthy settings then settings
  else none

/-- The click resolution of the api-url option feeding the callback
(client.py lines 151-152 and 174-176): the explicit flag value when given,
otherwise the GNS API environment variable, otherwise absent; then the
callback consults the configuration entry. -/
def resolve_api_url (flag env settings : Option String) : Option String :=
  _read_gns_api_url_from_settings settings (flag.orElse fun _ => env)

/-- Embeds `_validate_event_desc` (client.py lines 31-37).  `parsed` is the
outcome of `json.load event_file`, where `none` models a raised `TypeError`
or `ValueError`.  On failure the source logs the problem and falls through,
returning `None`; on success it returns the parsed document. -/
def _validate_event_desc (parsed : Option Json) : Option Json :=
  match parsed with
  | none => none
  | some event_desc => some event_desc

/-- The arguments with which `rules exec` invokes `checker.check`. -/
structure CheckInvocation where
  rules_path : String
  event_desc : Option Json

/-- Embeds the `rules exec` command body (client.py lines 162-171): the body
always runs and hands the callback result straight to `checker.check` as the
event payload. -/
def rules_exec (rules_path : String) (parsed : Option Json) : CheckInvocation :=
  { rules_path := rules_path, event_desc := _validate_event_desc parsed }

/-- Outcome of one `send-event` invocation. -/
inductive SendEventOutcome where
  | sent (event : Json) : SendEventOutcome
  | raised : SendEventOutcome
  | usageExit (code : Nat) : SendEventOutcome

/-- Embeds `send_event` (client.py lines 217-240).  `file` is `none` when
the file option is absent; otherwise it carries the outcome of `json.load`
on the file (`none` inside models a raised parse error, which propagates out
of the command).  Without a file, the positional triple is used only when
all three parts are truthy; otherwise the command logs an error and calls
`sys.exit 1` without submitting anything. -/
def send_event (host service severity : Option String)
    (file : Option (Option Json)) : SendEventOutcome :=
  match file with
  | some (some event) => SendEventOutcome.sent event
  | some none => SendEventOutcome.raised
  | none =>
    if pyTruthy host && pyTruthy service && pyTruthy severity then
      SendEventOutcome.sent (Json.obj
        [("host", Json.str (host.getD "")),
         ("service", Json.str (service.getD "")),
         ("severity", Json.str (severity.getD ""))])
    else
      SendEventOutcome.usageExit 1

/-- The pieces of filesystem state that `create-config` touches: the config
directory, the config file and its content. -/
structure ConfigFS where
  dirExists : Bool
  configExists : Bool
  configContent : Option String

/-- Result of `gen_config`: success, or the raised `RuntimeError`. -/
inductive GenConfigResult where
  | ok : GenConfigResult
  | runtimeError (msg : String) : GenConfigResult

/-- Embeds `gen_config` (client.py lines 65-85).  `packaged` is the content
of the packaged default config resource.  Returns the command outcome
together with the filesystem state left behind: the directory is created
when missing, then an existing config file without force raises
`RuntimeError` before any copy, otherwise the packaged content is copied
over the target. -/
def gen_config (force : Bool) (packaged : String) (fs : ConfigFS) :
    GenConfigResult × ConfigFS :=
  let fs1 := if fs.dirExists then fs else { fs with dirExists := true }
  if fs1.configExists && !force then
    (GenConfigResult.runtimeError "Config already exist. Nothing generated.", fs1)
  else
    (GenConfigResult.ok,
      { fs1 with configExists := true, configContent := some packaged })

/-- One search hit as read by `job-logs` (client.py lines 105-134): the
fields extracted from the hit. -/
structure Hit where
  timestamp : String
  msg : List String
  args : Option (List String)
  node : List String
  level : List String

/-- The comparison underlying the sort on line 113 of client.py: hits are
ordered by their timestamp field. -/
def hitLE (a b : Hit) : Bool :=
  decide (a.timestamp ≤ b.timestamp)

/-- A hit is echoed unless it is filtered out on lines 122-123 of client.py:
skipped exactly when the logger is not at debug level and the record's level
equals the debug marker. -/
def keepHit (debugMode : Bool) (h : Hit) : Bool :=
  debugMode || !(h.level == ["DEBUG"])

/-- Embeds the record-ordering behaviour of `job_logs` (client.py lines
105-134): the hits returned by the search index are sorted by timestamp and
then echoed in order, some records possibly skipped.  Returns the hits in
the order in which they are printed. -/
def job_logs (debugMode : Bool) (hits : List Hit) : List Hit :=
  (hits.mergeSort hitLE).filter (keepHit debugMode)

/-- The error taxonomy of the specification.  The members materialize very
differently in the code: `notARepository` is `click.BadParameter` raised by
`_validate_repo_path`; `syncConflictErr`, `versionConflict` and `transport`
are ordinary exceptions raised by the modules behind the commands;
`eventFormat` is never raised at all — on a malformed event file the code
logs and proceeds (the C2 slip). -/
inductive TaxonomyError where
  | notARepository (path : String) : TaxonomyError
  | syncConflictErr : TaxonomyError
  | versionConflict : TaxonomyError
  | eventFormat (file : String) : TaxonomyError
  | transport (context : String) : TaxonomyError

/-- What an invocation of `cli` can do, seen from `main`: complete, raise a
`ClickException` (such as `BadParameter`) which click handles itself, or
raise an ordinary exception that propagates out of `cli`. -/
inductive CliEvent where
  | ok : CliEvent
  | usageError (msg : String) : CliEvent
  | raised (msg : String) : CliEvent

/-- The usage block printed by the click standalone runner for a
`ClickException` raised during parameter processing (click library
behaviour, not repo code): a usage line, a help hint, a blank line, and the
error line. -/
def clickUsageLines (msg : String) : List String :=
  ["Usage: cli rules [OPTIONS] COMMAND [ARGS]...",
   "Try cli rules --help for help.",
   "",
   "Error: Invalid value: " ++ msg]

/-- How an exception raised during `cli` surfaces to the operator
(client.py lines 243-251 together with the click standalone runner that the
`cli` group uses): a `ClickException` such as `BadParameter` is caught
inside `cli` by click itself, which prints the usage block and exits with
status 2 through `SystemExit` — and `SystemExit` is not an `Exception`, so
it bypasses the handler in `main`; any other exception propagates out of
`cli` into `main`, which logs a single failure line and exits with status
1.  Returns the lines printed and the exit code. -/
def process_run : CliEvent → List String × Nat
  | CliEvent.ok => ([], 0)
  | CliEvent.usageError msg => (clickUsageLines msg, 2)
  | CliEvent.raised msg => (["Error occurred: " ++ msg], 1)

/-- How each taxonomy error of the specification materializes during an
invocation: `notARepository` as the `click.BadParameter` of
`_validate_repo_path` with its formatted message; sync conflicts, version
conflicts and transport failures as ordinary exceptions carrying their
text; `eventFormat` never (`none`): no code path raises it. -/
def materialize : TaxonomyError → Option CliEvent
  | TaxonomyError.notARepository path =>
      some (CliEvent.usageError (path ++ " is not git repository!"))
  | TaxonomyError.syncConflictErr => some (CliEvent.raised "sync conflict")
  | TaxonomyError.versionConflict =>
      some (CliEvent.raised "version conflict")
  | TaxonomyError.eventFormat _ => none
  | TaxonomyError.transport context =>
      some (CliEvent.raised ("transport error: " ++ context))

/-- A rule set: a mapping from rule name to rule content. -/
abbrev RuleSet := List (String × String)

/-- Lookup of a rule's content by name. -/
def lookupRule (rs : RuleSet) (name : String) : Option String :=
  Option.map Prod.snd (rs.find? fun p => p.1 == name)

/-- Modelled from the spec: the remote rule store (the `pownycli.gnsapi`
module is not under `src/`): the authoritative rule set together with its
version token. -/
structure RemoteStore where
  ruleSet : RuleSet
  token : Nat

/-- Modelled from the spec: the local repository state consulted by
`uploader.upload` (the `pownycli.uploader` module is not under `src/`): the
current rule set and the last-synchronized version token. -/
structure LocalRepo where
  current : RuleSet
  lastSynced : Nat

/-- Modelled from the spec: the upload manifest: the entries that differ
(added, changed, removed) between the local rule set and the remote
snapshot, each with its remote and local content. -/
def uploadManifest (localRules remoteRules : RuleSet) :
    List (String × Option String × Option String) :=
  ((localRules.map Prod.fst ++ remoteRules.map Prod.fst).dedup).filterMap
    fun n =>
      let lv := lookupRule localRules n
      let rv := lookupRule remoteRules n
      if lv = rv then none else some (n, rv, lv)

/-- Error outcome of `uploader.upload`. -/
inductive UploadError where
  | syncConflict : UploadError

/-- Modelled from the spec: `uploader.upload` (the `pownycli.uploader`
module is not under `src/`; client.py line 159 is its only caller).  Fetch
the remote token and snapshot; when the remote token differs from the
last-synchronized token and force is off, fail with the sync-conflict
error; otherwise build the manifest; an empty manifest is a successful
no-op leaving the remote untouched; a non-empty manifest is pushed
atomically, the remote moves to a fresh token holding the local rule set,
and the new token is recorded locally.  Returns the resulting remote and
local states. -/
def upload (remote : RemoteStore) (repo : LocalRepo) (message : String)
    (force : Bool) : Except UploadError (RemoteStore × LocalRepo) :=
  if (remote.token != repo.lastSynced) && !force then
    Except.error UploadError.syncConflict
  else
    let manifest := uploadManifest repo.current remote.ruleSet
    if manifest.isEmpty then
      Except.ok (remote, { repo with lastSynced := remote.token })
    else
      let pushed : RemoteStore :=
        { ruleSet := repo.current, token := remote.token + 1 }
      Except.ok (pushed, { repo with lastSynced := pushed.token })

/-- C1: the resolution order of the remote service address honours the
explicit flag, then the environment variable, then the configuration entry,
but when all three are absent `resolve_api_url` evaluates to `none` instead
of failing: line 47 of client.py constructs `click.BadParameter` without
raising it, so the command proceeds with an absent address. -/
theorem resolve_api_url_absent_yields_none :
    resolve_api_url (some "from-flag") (some "from-env") (some "from-conf") =
      some "from-flag" ∧
    resolve_api_url none (some "from-env") (some "from-conf") =
      some "from-env" ∧
    resolve_api_url none none (some "from-conf") = some "from-conf" ∧
    resolve_api_url none none none = none := by
  refine ⟨rfl, rfl, rfl, rfl⟩

/-- C2: with an event file whose contents do not parse as JSON, the
validation callback returns an absent payload and `rules exec` still enters
evaluation: `checker.check` is invoked with an absent event description
instead of the invocation failing beforehand. -/
theorem rules_exec_enters_check_on_malformed_event :
    rules_exec "rules" none =
      { rules_path := "rules", event_desc := none } := rfl

/-- C3: a `send-event` invocation without the file option and with an
incomplete positional triple (at least one part missing or empty) submits
nothing and terminates as a usage error with exit code 1. -/
theorem send_event_incomplete_triple_usage_error
    (host service severity : Option String)
    (h : (pyTruthy host && pyTruthy service && pyTruthy severity) = false) :
    send_event host service severity none = SendEventOutcome.usageExit 1 := by
  simp [send_event, h]

/-- C3 witness: host given, service empty, severity missing. -/
theorem send_event_incomplete_triple_usage_error_witness :
    (pyTruthy (some "host1") && pyTruthy (some "") && pyTruthy none) = false ∧
    send_event (some "host1") (some "") none none =
      SendEventOutcome.usageExit 1 :=
  ⟨by decide,
    send_event_incomplete_triple_usage_error (some "host1") (some "") none
      (by decide)⟩

/-- C4: when the rules-path directory listing lacks the git metadata entry,
validation rejects the path with an error and no rules subcommand body
runs; when the listing contains it, validation returns the path
unchanged. -/
theorem validate_repo_path_checks_git (listdir : String → List String)
    (value : String) :
    (".git" ∉ listdir value →
      ∀ (α : Type) (body : String → α),
        rules_group listdir value body =
          Except.error (value ++ " is not git repository!")) ∧
    (".git" ∈ listdir value →
      _validate_repo_path listdir value = Except.ok value) := by
  constructor
  · intro h α body
    simp [rules_group, _validate_repo_path, h, Except.map]
  · intro h
    simp [_validate_repo_path, h]

/-- C4 witness: a listing without the git entry is rejected before the body
runs; a listing with it passes the path through. -/
theorem validate_repo_path_checks_git_witness :
    (rules_group (fun _ => ["rules.py"]) "norepo" String.length =
      Except.error ("norepo" ++ " is not git repository!")) ∧
    _validate_repo_path (fun _ => [".git", "rules.py"]) "repo" =
      Except.ok "repo" := by
  constructor
  · exact (validate_repo_path_checks_git (fun _ => ["rules.py"]) "norepo").1
      (by decide) Nat String.length
  · exact (validate_repo_path_checks_git
      (fun _ => [".git", "rules.py"]) "repo").2 (by decide)

/-- C5 counterexample: a rules invocation whose path listing lacks the git
entry raises `NotARepositoryError` as `click.BadParameter`; the process
surfaces it as the four-line click usage block with exit status 2, handled
inside `cli` by click and bypassing `main` — not as a single-line failure
message. -/
theorem taxonomy_error_not_single_line :
    _validate_repo_path (fun _ => ["rules.py"]) "norepo" =
      Except.error ("norepo" ++ " is not git repository!") ∧
    materialize (TaxonomyError.notARepository "norepo") =
      some (CliEvent.usageError ("norepo" ++ " is not git repository!")) ∧
    (process_run (CliEvent.usageError
      ("norepo" ++ " is not git repository!"))).1.length = 4 ∧
    (process_run (CliEvent.usageError
      ("norepo" ++ " is not git repository!"))).1.length ≠ 1 ∧
    (process_run (CliEvent.usageError
      ("norepo" ++ " is not git repository!"))).2 = 2 := by
  refine ⟨by simp [_validate_repo_path], rfl, rfl, by decide, rfl⟩

/-- C5 amended: every taxonomy error the code can actually raise is
surfaced with output and a non-zero exit status, never silently swallowed;
sync conflicts, version conflicts and transport failures propagate to
`main` and yield exactly one single-line failure message with exit status
1; `NotARepositoryError` is surfaced by click itself as a four-line usage
error with exit status 2, bypassing `main`; `EventFormatError` is never
raised by the code at all. -/
theorem taxonomy_error_surfacing_amended (e : TaxonomyError) :
    (∀ ev, materialize e = some ev →
      (process_run ev).1 ≠ [] ∧ (process_run ev).2 ≠ 0) ∧
    (∀ msg, materialize e = some (CliEvent.raised msg) →
      process_run (CliEvent.raised msg) =
        (["Error occurred: " ++ msg], 1)) ∧
    (∀ path, e = TaxonomyError.notARepository path →
      materialize e =
        some (CliEvent.usageError (path ++ " is not git repository!")) ∧
      (process_run (CliEvent.usageError
        (path ++ " is not git repository!"))).1.length = 4 ∧
      (process_run (CliEvent.usageError
        (path ++ " is not git repository!"))).2 = 2) ∧
    (∀ file, e = TaxonomyError.eventFormat file → materialize e = none) := by
  refine ⟨?_, ?_, ?_, ?_⟩
  · intro ev h
    cases e <;> simp [materialize] at h <;> subst h <;>
      simp [process_run, clickUsageLines]
  · intro msg h
    cases e <;> simp [materialize] at h <;> subst h <;>
      simp [process_run]
  · intro path h
    cases e <;> simp at h <;> subst h <;>
      simp [materialize, process_run, clickUsageLines]
  · intro file h
    cases e <;> simp [materialize] at h ⊢

/-- C5 amended witness: each materialization shape exercised concretely: a
sync conflict surfaced and non-zero, a transport failure as one line with
exit 1, a repository failure as the usage block with exit 2, and an event
format error materializing nowhere. -/
theorem taxonomy_error_surfacing_amended_witness :
    ((process_run (CliEvent.raised "sync conflict")).1 ≠ [] ∧
      (process_run (CliEvent.raised "sync conflict")).2 ≠ 0) ∧
    process_run (CliEvent.raised ("transport error: " ++ "push")) =
      (["Error occurred: " ++ ("transport error: " ++ "push")], 1) ∧
    (materialize (TaxonomyError.notARepository "norepo") =
        some (CliEvent.usageError ("norepo" ++ " is not git repository!")) ∧
      (process_run (CliEvent.usageError
        ("norepo" ++ " is not git repository!"))).1.length = 4 ∧
      (process_run (CliEvent.usageError
        ("norepo" ++ " is not git repository!"))).2 = 2) ∧
    materialize (TaxonomyError.eventFormat "event.json") = none :=
  ⟨(taxonomy_error_surfacing_amended TaxonomyError.syncConflictErr).1
      (CliEvent.raised "sync conflict") rfl,
   (taxonomy_error_surfacing_amended (TaxonomyError.transport "push")).2.1
      ("transport error: " ++ "push") rfl,
   (taxonomy_error_surfacing_amended
      (TaxonomyError.notARepository "norepo")).2.2.1 "norepo" rfl,
   (taxonomy_error_surfacing_amended
      (TaxonomyError.eventFormat "event.json")).2.2.2 "event.json" rfl⟩

/-- C6: when the remote version token differs from the locally recorded
last-synchronized token, `upload` without force fails with the
sync-conflict error, while `upload` with force succeeds and records the
resulting remote token as the new last-synchronized token. -/
theorem upload_conflict_detection (remote : RemoteStore) (repo : LocalRepo)
    (message : String) (h : remote.token ≠ repo.lastSynced) :
    upload remote repo message false = Except.error UploadError.syncConflict ∧
    ∃ remote2 repo2,
      upload remote repo message true = Except.ok (remote2, repo2) ∧
        repo2.lastSynced = remote2.token := by
  have hb : (remote.token != repo.lastSynced) = true := by
    simpa [bne_iff_ne] using h
  constructor
  · simp [upload, hb]
  · by_cases hm : (uploadManifest repo.current remote.ruleSet).isEmpty = true
    · exact ⟨remote, { repo with lastSynced := remote.token },
        by simp [upload, hm], rfl⟩
    · exact ⟨{ ruleSet := repo.current, token := remote.token + 1 },
        { repo with lastSynced := remote.token + 1 },
        by simp [upload, hm], rfl⟩

/-- C6 witness: remote at token 1, local last synced at token 0. -/
theorem upload_conflict_detection_witness :
    (1 : Nat) ≠ (0 : Nat) ∧
    (upload { ruleSet := [("a.rule", "v2")], token := 1 }
        { current := [("a.rule", "v1")], lastSynced := 0 } "msg" false =
          Except.error UploadError.syncConflict ∧
      ∃ remote2 repo2,
        upload { ruleSet := [("a.rule", "v2")], token := 1 }
            { current := [("a.rule", "v1")], lastSynced := 0 } "msg" true =
          Except.ok (remote2, repo2) ∧ repo2.lastSynced = remote2.token) :=
  ⟨by decide,
    upload_conflict_detection
      { ruleSet := [("a.rule", "v2")], token := 1 }
      { current := [("a.rule", "v1")], lastSynced := 0 } "msg" (by decide)⟩

/-- C7: an upload whose computed manifest is empty — the invocation reaches
manifest construction, that is, it is not stopped earlier by the conflict
check — is a successful no-op: the remote, its version token included, is
unchanged, so resynchronizing an unchanged rule set is safe. -/
theorem upload_empty_manifest_noop (remote : RemoteStore) (repo : LocalRepo)
    (message : String) (force : Bool)
    (hm : uploadManifest repo.current remote.ruleSet = [])
    (hc : remote.token = repo.lastSynced ∨ force = true) :
    upload remote repo message force =
      Except.ok (remote, { repo with lastSynced := remote.token }) := by
  have hb : ((remote.token != repo.lastSynced) && !force) = false := by
    rcases hc with hc | hc
    · simp [hc]
    · simp [hc]
  simp [upload, hb, hm]

/-- C7 witness: identical local and remote rule sets at the same token. -/
theorem upload_empty_manifest_noop_witness :
    uploadManifest [("a.rule", "v1")] [("a.rule", "v1")] = [] ∧
    ((0 : Nat) = 0 ∨ false = true) ∧
    upload { ruleSet := [("a.rule", "v1")], token := 0 }
        { current := [("a.rule", "v1")], lastSynced := 0 } "msg" false =
      Except.ok ({ ruleSet := [("a.rule", "v1")], token := 0 },
        { current := [("a.rule", "v1")], lastSynced := 0 }) :=
  ⟨by decide, Or.inl rfl,
    upload_empty_manifest_noop
      { ruleSet := [("a.rule", "v1")], token := 0 }
      { current := [("a.rule", "v1")], lastSynced := 0 } "msg" false
      (by decide) (Or.inl rfl)⟩

/-- C8: when the file option is supplied and parses, the submitted event is
the document from the file, even when a complete positional triple is also
supplied: the positional arguments are ignored. -/
theorem send_event_file_takes_precedence (host service severity : Option String)
    (event : Json) (hh : pyTruthy host = true) (hs : pyTruthy service = true)
    (hv : pyTruthy severity = true) :
    send_event host service severity (some (some event)) =
      SendEventOutcome.sent event := rfl

/-- C8 witness: full triple and a parsed file document supplied together. -/
theorem send_event_file_takes_precedence_witness :
    pyTruthy (some "h1") = true ∧ pyTruthy (some "s1") = true ∧
    pyTruthy (some "crit") = true ∧
    send_event (some "h1") (some "s1") (some "crit")
        (some (some (Json.str "doc"))) =
      SendEventOutcome.sent (Json.str "doc") :=
  ⟨by decide, by decide, by decide,
    send_event_file_takes_precedence (some "h1") (some "s1") (some "crit")
      (Json.str "doc") (by decide) (by decide) (by decide)⟩

/-- C9: when the config file already exists, `create-config` without force
raises `RuntimeError` and leaves the existing file content untouched, while
with force the file is overwritten with the packaged default config. -/
theorem gen_config_respects_existing (packaged : String) (fs : ConfigFS)
    (h : fs.configExists = true) :
    (∃ msg, (gen_config false packaged fs).1 =
      GenConfigResult.runtimeError msg) ∧
    (gen_config false packaged fs).2.configContent = fs.configContent ∧
    (gen_config true packaged fs).1 = GenConfigResult.ok ∧
    (gen_config true packaged fs).2.configContent = some packaged := by
  by_cases hd : fs.dirExists = true
  · refine ⟨⟨"Config already exist. Nothing generated.", ?_⟩, ?_, ?_, ?_⟩ <;>
      simp [gen_config, hd, h]
  · refine ⟨⟨"Config already exist. Nothing generated.", ?_⟩, ?_, ?_, ?_⟩ <;>
      simp [gen_config, hd, h]

/-- C9 witness: an existing config file with old content. -/
theorem gen_config_respects_existing_witness :
    ({ dirExists := true, configExists := true,
       configContent := some "old" } : ConfigFS).configExists = true ∧
    ((∃ msg, (gen_config false "default"
        { dirExists := true, configExists := true,
          configContent := some "old" }).1 =
          GenConfigResult.runtimeError msg) ∧
      (gen_config false "default"
        { dirExists := true, configExists := true,
          configContent := some "old" }).2.configContent = some "old" ∧
      (gen_config true "default"
        { dirExists := true, configExists := true,
          configContent := some "old" }).1 = GenConfigResult.ok ∧
      (gen_config true "default"
        { dirExists := true, configExists := true,
          configContent := some "old" }).2.configContent = some "default") :=
  ⟨rfl,
    gen_config_respects_existing "default"
      { dirExists := true, configExists := true, configContent := some "old" }
      rfl⟩

/-- C10: the records printed by `job-logs` appear in nondecreasing order of
their timestamp field, whatever order the search index returned them in. -/
theorem job_logs_sorted_by_timestamp (debugMode : Bool) (hits : List Hit) :
    (job_logs debugMode hits).Pairwise
      fun a b => a.timestamp ≤ b.timestamp := by
  have htrans : ∀ (a b c : Hit), hitLE a b → hitLE b c → hitLE a c := by
    intro a b c hab hbc
    simp only [hitLE, decide_eq_true_eq] at hab hbc ⊢
    exact le_trans hab hbc
  have htotal : ∀ (a b : Hit), hitLE a b || hitLE b a := by
    intro a b
    simp only [hitLE, Bool.or_eq_true, decide_eq_true_eq]
    exact le_total a.timestamp b.timestamp
  have hs : (hits.mergeSort hitLE).Pairwise fun a b => hitLE a b :=
    List.sorted_mergeSort htrans htotal hits
  have hf : (job_logs debugMode hits).Pairwise fun a b => hitLE a b :=
    List.Pairwise.sublist (List.filter_sublist _) hs
  exact hf.imp fun hab => by
    simpa [hitLE, decide_eq_true_eq] using hab

end PownyCli
